import Mathlib

/-!
Verification of the contact-intake form in `src/tel.js`.

The component keeps its UI state in a collection of React state cells; we
embed them as one record `AppState`. The outcomes of the external services
(Firestore document-id generation, the `setDoc` write, and the Gemini
`fetch` call) are supplied by an `Env` record, and every outbound network
request issued during a run is collected in a `List NetworkCall` trace.
The event handlers `handleSubmit`, `saveContactToFirestore`,
`predictCountryOfOrigin` and the auth listener are embedded as pure state
transformers, following the source line by line (the sequential-await
semantics of the original).
-/

/-- The three values ever stored in the `statusType` state cell
(`'error' | 'success' | 'info'`). -/
inductive StatusType where
  | info
  | success
  | error
deriving DecidableEq, Repr

/-- The object passed to `saveContactToFirestore` from `handleSubmit`
(`contactData = { name: name.trim(), phoneNumber: phoneNumber }`). -/
structure ContactData where
  name : String
  phoneNumber : String
deriving DecidableEq, Repr

/-- The value stored in the `submittedData` state cell on a successful
submission (`{ ...contactData, docId }`). -/
structure SubmittedData where
  name : String
  phoneNumber : String
  docId : String
deriving DecidableEq, Repr

/-- Marker for the store-assigned sentinel `serverTimestamp()` that the code
places in the `createdAt` field before writing. -/
inductive FieldValue where
  | serverTimestamp
deriving DecidableEq, Repr

/-- The document actually written by `setDoc`:
`saveData = { ...data, userId: userId, createdAt: serverTimestamp() }`. -/
structure SavedRecord where
  name : String
  phoneNumber : String
  userId : String
  createdAt : FieldValue
deriving DecidableEq, Repr

/-- An outbound network request issued during a run: either the Firestore
`setDoc` write (with its collection path and document payload) or the
Gemini `fetch` (with the prompt text of the request body). -/
inductive NetworkCall where
  | storeWrite (path : List String) (record : SavedRecord)
  | inferenceRequest (query : String)
deriving DecidableEq, Repr

/-- The React state cells of the `App` component.  `db` records whether the
Firestore handle state cell is non-null; `userId`, `prediction`,
`statusMessage`, `statusType` and `submittedData` are nullable and embedded
as `Option`. -/
structure AppState where
  name : String
  phoneNumber : String
  submittedData : Option SubmittedData
  isSubmitting : Bool
  db : Bool
  userId : Option String
  isAuthReady : Bool
  prediction : Option String
  isPredicting : Bool
  statusMessage : Option String
  statusType : Option StatusType
deriving DecidableEq, Repr

/-- Outcome of the Gemini `fetch`: a network-level failure (the promise
rejects), or an HTTP response with its `response.ok` flag and the optional
`candidates[0].content.parts[0].text` field of the parsed body. -/
inductive FetchOutcome where
  | networkError
  | response (ok : Bool) (candidateText : Option String)
deriving DecidableEq, Repr

/-- Outcomes supplied by the external services for one submission: the
`appId` build-time global, the id generated by `doc(collection(...))`,
whether the `setDoc` write resolves, and the `fetch` outcome. -/
structure Env where
  appId : String
  docId : String
  writeSucceeds : Bool
  fetch : FetchOutcome
deriving DecidableEq, Repr

/-- `validatePhoneNumber` from the source: `/^\d{7,15}$/.test(number)`.
The anchored regex accepts exactly the strings made of 7 to 15 ASCII
digits. -/
def validatePhoneNumber (number : String) : Bool :=
  number.data.all (fun c => c.isDigit) &&
    decide (7 ≤ number.length) && decide (number.length ≤ 15)

/-- The spec's wording of phone validity, stated independently of the
source: every character is an ASCII digit (code points 48 to 57) and the
length is between 7 and 15 inclusive. -/
def phoneSpec (s : String) : Prop :=
  (∀ c ∈ s.data, 48 ≤ c.toNat ∧ c.toNat ≤ 57) ∧ 7 ≤ s.length ∧ s.length ≤ 15

/-- JavaScript `String.prototype.trim` as used in `name.trim()`: strip
leading and trailing whitespace. -/
def jsTrim (s : String) : String :=
  ⟨List.reverse (List.dropWhile Char.isWhitespace
      (List.reverse (List.dropWhile Char.isWhitespace s.data)))⟩

/-- The `userQuery` prompt string built inside `predictCountryOfOrigin`
from the contact name and phone number. -/
def userQuery (contactName contactNumber : String) : String :=
  "Analyze the name \"" ++ contactName ++ "\" and the phone number \"" ++
    contactNumber ++
    "\". Based on international dialing codes and typical naming conventions, predict the most likely country of origin for this person. Provide a single, concise country name and an explanation in a single paragraph."

/-- The fallback text substituted when the response body lacks
`candidates[0].content.parts[0].text`. -/
def fallbackPrediction : String := "Could not determine country of origin."

/-- `predictCountryOfOrigin(contactName, contactNumber)` from the source.
It first sets `isPredicting`, clears `prediction` and posts the interim
info status; then issues the `fetch`; a non-ok response throws into the
function's own `catch`, which (like a network error) sets the error
status; an ok response stores the candidate text (or the fallback) and
sets the success status.  The `finally` clears `isPredicting`.  All
failures are caught inside the function, so it always returns normally. -/
def predictCountryOfOrigin (env : Env) (s : AppState)
    (contactName contactNumber : String) : AppState × List NetworkCall :=
  let s := { s with
    isPredicting := true
    prediction := none
    statusMessage := some "Predicting country..."
    statusType := some StatusType.info }
  let calls := [NetworkCall.inferenceRequest (userQuery contactName contactNumber)]
  let s :=
    match env.fetch with
    | FetchOutcome.networkError =>
        { s with
          statusMessage := some "Failed to predict country. Check console for API errors."
          statusType := some StatusType.error }
    | FetchOutcome.response ok text =>
        if ok then
          { s with
            prediction := some (text.getD fallbackPrediction)
            statusMessage := some "Prediction complete!"
            statusType := some StatusType.success }
        else
          { s with
            statusMessage := some "Failed to predict country. Check console for API errors."
            statusType := some StatusType.error }
  ({ s with isPredicting := false }, calls)

/-- The fixed collection path used by `saveContactToFirestore`:
`/artifacts/{appId}/public/data/contacts`. -/
def contactsPath (appId : String) : List String :=
  ["artifacts", appId, "public", "data", "contacts"]

/-- `saveContactToFirestore(data)` from the source.  It throws (here:
returns `Except.error` with the thrown message) when the `db` handle or
`userId` is unavailable, before any write is attempted; otherwise it
builds `saveData` by appending `userId` and the `serverTimestamp`
sentinel, attempts the `setDoc` write, and returns the generated document
id on success or throws the save-failure message.  The second component is
the trace of store writes attempted. -/
def saveContactToFirestore (env : Env) (s : AppState) (data : ContactData) :
    Except String String × List NetworkCall :=
  match s.db, s.userId with
  | true, some uid =>
      let saveData : SavedRecord :=
        { name := data.name
          phoneNumber := data.phoneNumber
          userId := uid
          createdAt := FieldValue.serverTimestamp }
      let calls := [NetworkCall.storeWrite (contactsPath env.appId) saveData]
      if env.writeSucceeds then
        (Except.ok env.docId, calls)
      else
        (Except.error "Failed to save data to cloud. Check console.", calls)
  | _, _ =>
      (Except.error "Firestore or User ID not available for saving.", [])

/-- `handleSubmit(e)` from the source.  It first clears `submittedData`,
`prediction` and the status; rejects with an info status when auth is not
ready; rejects with an error status when the trimmed name is empty or the
phone fails validation; otherwise sets `isSubmitting`, posts the saving
status, runs `saveContactToFirestore` and, on success, runs
`predictCountryOfOrigin` and then the post-prediction UI updates
(populate `submittedData`, clear the two inputs, post the success
status).  A throw from the save lands in the `catch`, which posts the
error message; the `finally` clears `isSubmitting`. -/
def handleSubmit (env : Env) (s : AppState) : AppState × List NetworkCall :=
  let s := { s with
    submittedData := none
    prediction := none
    statusMessage := none
    statusType := none }
  if !s.isAuthReady then
    ({ s with
        statusMessage := some "Authentication is not ready. Please wait a moment."
        statusType := some StatusType.info }, [])
  else if jsTrim s.name == "" || !validatePhoneNumber s.phoneNumber then
    ({ s with
        statusMessage := some "Please enter a valid name and phone number (7-15 digits only)."
        statusType := some StatusType.error }, [])
  else
    let s := { s with isSubmitting := true }
    let contactData : ContactData :=
      { name := jsTrim s.name, phoneNumber := s.phoneNumber }
    let s := { s with
      statusMessage := some "Saving contact data to Firestore..."
      statusType := some StatusType.info }
    match saveContactToFirestore env s contactData with
    | (Except.error msg, saveCalls) =>
        ({ s with
            statusMessage :=
              some (if msg == "" then
                      "An unexpected error occurred during submission."
                    else msg)
            statusType := some StatusType.error
            isSubmitting := false }, saveCalls)
    | (Except.ok docId, saveCalls) =>
        let r := predictCountryOfOrigin env s contactData.name contactData.phoneNumber
        ({ r.1 with
            submittedData := some
              { name := contactData.name
                phoneNumber := contactData.phoneNumber
                docId := docId }
            name := ""
            phoneNumber := ""
            statusMessage := some "Data saved and prediction requested!"
            statusType := some StatusType.success
            isSubmitting := false }, saveCalls ++ r.2)

/-- Environment of the auth bootstrap `useEffect`: the optional
`__initial_auth_token` global and whether the attempted sign-in call
(custom-token or anonymous) resolves. -/
structure AuthEnv where
  initialAuthToken : Option String
  signInSucceeds : Bool
deriving DecidableEq, Repr

/-- Which sign-in call `authenticate` issues: `signInWithCustomToken` when
a pre-supplied token exists, `signInAnonymously` otherwise. -/
inductive SignInMethod where
  | customToken
  | anonymous
deriving DecidableEq, Repr

/-- The `authenticate` closure of the auth `useEffect`: attempts the
sign-in and, on failure, posts the auth error status.  It does not touch
`isAuthReady`.  The second component records which sign-in call was
issued. -/
def authenticate (env : AuthEnv) (s : AppState) : AppState × SignInMethod :=
  let method :=
    match env.initialAuthToken with
    | some _ => SignInMethod.customToken
    | none => SignInMethod.anonymous
  if env.signInSucceeds then
    (s, method)
  else
    ({ s with
        statusMessage := some "Authentication failed. Check console for details."
        statusType := some StatusType.error }, method)

/-- The `onAuthStateChanged` listener callback: with a present user it
records the uid and marks the session ready; with no user it runs
`authenticate`. -/
def onAuthStateChangedCallback (env : AuthEnv) (s : AppState)
    (user : Option String) : AppState :=
  match user with
  | some uid => { s with userId := some uid, isAuthReady := true }
  | none => (authenticate env s).1

/-- The `disabled` expression of the submit button:
`isSubmitting || isPredicting || !isAuthReady`. -/
def submitButtonDisabled (s : AppState) : Bool :=
  s.isSubmitting || s.isPredicting || !s.isAuthReady

/-- Whether `predictCountryOfOrigin` takes its `catch` branch: the fetch
rejects, or resolves with a non-ok HTTP status. -/
def predictionFails (f : FetchOutcome) : Bool :=
  match f with
  | FetchOutcome.networkError => true
  | FetchOutcome.response ok _ => !ok

/-- Concrete fixture: the component state right after a successful auth
bootstrap, with the end-to-end test inputs typed in. -/
def idleReadyState : AppState :=
  { name := "John Smith"
    phoneNumber := "442079460199"
    submittedData := none
    isSubmitting := false
    db := true
    userId := some "uid-1"
    isAuthReady := true
    prediction := none
    isPredicting := false
    statusMessage := none
    statusType := none }

/-- Concrete fixture: both external calls succeed. -/
def envAllOk : Env :=
  { appId := "default-app-id"
    docId := "doc-123"
    writeSucceeds := true
    fetch := FetchOutcome.response true (some "United Kingdom.") }

/-- Concrete fixture: the write succeeds but the Gemini fetch rejects. -/
def envPredictNetworkError : Env :=
  { envAllOk with fetch := FetchOutcome.networkError }

/-- Concrete fixture: the Firestore write fails. -/
def envWriteFails : Env :=
  { envAllOk with writeSucceeds := false }

/-- Concrete fixture: no pre-supplied token and the anonymous sign-in call
fails. -/
def authEnvAnonFail : AuthEnv :=
  { initialAuthToken := none, signInSucceeds := false }

/-- Concrete fixture: the state before any auth notification has carried a
user. -/
def awaitingAuthState : AppState :=
  { idleReadyState with isAuthReady := false, userId := none }

theorem isDigit_iff_toNat (c : Char) :
    c.isDigit = true ↔ 48 ≤ c.toNat ∧ c.toNat ≤ 57 := by
  simp [Char.isDigit, Char.le_def, Char.toNat]
  rfl

/-- Claim C1: for every string s, `validatePhoneNumber s` is true iff s
consists solely of ASCII digits and has length between 7 and 15
inclusive. -/
theorem C1_validatePhoneNumber_iff_phoneSpec (s : String) :
    validatePhoneNumber s = true ↔ phoneSpec s := by
  unfold validatePhoneNumber phoneSpec
  simp [List.all_eq_true, isDigit_iff_toNat, and_assoc]

/-- Counterexample to claim C2: with the write succeeding and the
prediction fetch rejecting, the final status is `success`, not the error
status the claim requires. -/
theorem C2_counterexample_final_status_success :
    envPredictNetworkError.writeSucceeds = true ∧
    predictionFails envPredictNetworkError.fetch = true ∧
    (handleSubmit envPredictNetworkError idleReadyState).1.statusType ≠
      some StatusType.error ∧
    (handleSubmit envPredictNetworkError idleReadyState).1.statusType =
      some StatusType.success := by
  decide

/-- Claim C2 (amended): when the store write succeeds and the prediction
fails, the record stays persisted and remains visible in the
last-submission summary, but the final status is the `success` status, not
an error status. -/
theorem C2_amended_persisted_with_success_status (env : Env) (s : AppState)
    (uid : String)
    (hready : s.isAuthReady = true)
    (hname : jsTrim s.name ≠ "")
    (hphone : validatePhoneNumber s.phoneNumber = true)
    (hdb : s.db = true)
    (huid : s.userId = some uid)
    (hw : env.writeSucceeds = true)
    (hf : predictionFails env.fetch = true) :
    (handleSubmit env s).1.statusType = some StatusType.success ∧
    (handleSubmit env s).1.submittedData =
      some { name := jsTrim s.name, phoneNumber := s.phoneNumber, docId := env.docId } ∧
    NetworkCall.storeWrite (contactsPath env.appId)
      { name := jsTrim s.name
        phoneNumber := s.phoneNumber
        userId := uid
        createdAt := FieldValue.serverTimestamp } ∈ (handleSubmit env s).2 := by
  cases hfetch : env.fetch with
  | networkError =>
      simp [handleSubmit, saveContactToFirestore, predictCountryOfOrigin,
        hready, hphone, hdb, huid, hw, hname, hfetch]
  | response ok text =>
      rw [hfetch] at hf
      simp [predictionFails] at hf
      simp [handleSubmit, saveContactToFirestore, predictCountryOfOrigin,
        hready, hphone, hdb, huid, hw, hname, hfetch, hf]

theorem C2_amended_witness :
    (handleSubmit envPredictNetworkError idleReadyState).1.statusType =
        some StatusType.success ∧
    (handleSubmit envPredictNetworkError idleReadyState).1.submittedData =
      some { name := "John Smith", phoneNumber := "442079460199", docId := "doc-123" } ∧
    NetworkCall.storeWrite (contactsPath "default-app-id")
      { name := "John Smith"
        phoneNumber := "442079460199"
        userId := "uid-1"
        createdAt := FieldValue.serverTimestamp } ∈
      (handleSubmit envPredictNetworkError idleReadyState).2 :=
  C2_amended_persisted_with_success_status envPredictNetworkError idleReadyState
    "uid-1" rfl (by decide) (by decide) rfl rfl rfl rfl

/-- Claim C3: when `saveContactToFirestore` fails (missing handle/identity
or a failed write), the submission ends Idle with an error status, and no
inference request is ever issued. -/
theorem C3_store_failure_aborts_prediction (env : Env) (s : AppState)
    (hready : s.isAuthReady = true)
    (hname : jsTrim s.name ≠ "")
    (hphone : validatePhoneNumber s.phoneNumber = true)
    (hfail : s.db = false ∨ s.userId = none ∨ env.writeSucceeds = false) :
    (handleSubmit env s).1.statusType = some StatusType.error ∧
    (handleSubmit env s).1.isSubmitting = false ∧
    (handleSubmit env s).1.isPredicting = s.isPredicting ∧
    ∀ q, NetworkCall.inferenceRequest q ∉ (handleSubmit env s).2 := by
  rcases hfail with h | h | h
  · simp [handleSubmit, saveContactToFirestore, hready, hname, hphone, h]
  · cases hdb : s.db <;>
      simp [handleSubmit, saveContactToFirestore, hready, hname, hphone, h, hdb]
  · cases hdb : s.db <;> cases huid : s.userId <;>
      simp [handleSubmit, saveContactToFirestore, hready, hname, hphone, h, hdb, huid]

theorem C3_witness :
    (jsTrim idleReadyState.name ≠ "" ∧
      validatePhoneNumber idleReadyState.phoneNumber = true) ∧
    (handleSubmit envWriteFails idleReadyState).1.statusType = some StatusType.error ∧
    (handleSubmit envWriteFails idleReadyState).1.isSubmitting = false ∧
    (handleSubmit envWriteFails idleReadyState).1.isPredicting = idleReadyState.isPredicting ∧
    ∀ q, NetworkCall.inferenceRequest q ∉ (handleSubmit envWriteFails idleReadyState).2 :=
  ⟨⟨by decide, by decide⟩,
    C3_store_failure_aborts_prediction envWriteFails idleReadyState rfl
      (by decide) (by decide) (Or.inr (Or.inr rfl))⟩

/-- Claim C4: every record reaching the store carries the session identity
(`userId` was non-null and tags the record) and field values that passed
validation (trimmed non-empty name, 7-to-15-digit phone). -/
theorem C4_store_write_requires_identity_and_validation (env : Env)
    (s : AppState) (path : List String) (rec : SavedRecord)
    (hmem : NetworkCall.storeWrite path rec ∈ (handleSubmit env s).2) :
    s.userId = some rec.userId ∧
    rec.name = jsTrim s.name ∧
    rec.name ≠ "" ∧
    rec.phoneNumber = s.phoneNumber ∧
    validatePhoneNumber rec.phoneNumber = true := by
  by_cases hready : s.isAuthReady = true
  · by_cases hname : jsTrim s.name = ""
    · simp [handleSubmit, hready, hname] at hmem
    · by_cases hphone : validatePhoneNumber s.phoneNumber = true
      · cases hdb : s.db with
        | false =>
            simp [handleSubmit, saveContactToFirestore, hready, hname, hphone, hdb] at hmem
        | true =>
            cases huid : s.userId with
            | none =>
                simp [handleSubmit, saveContactToFirestore, hready, hname,
                  hphone, hdb, huid] at hmem
            | some uid =>
                cases hw : env.writeSucceeds with
                | false =>
                    simp [handleSubmit, saveContactToFirestore, hready, hname,
                      hphone, hdb, huid, hw] at hmem
                    obtain ⟨-, hrec⟩ := hmem
                    subst hrec
                    simp [huid, hname, hphone]
                | true =>
                    simp [handleSubmit, saveContactToFirestore,
                      predictCountryOfOrigin, hready, hname, hphone, hdb,
                      huid, hw] at hmem
                    obtain ⟨-, hrec⟩ := hmem
                    subst hrec
                    simp [huid, hname, hphone]
      · simp [handleSubmit, hready, hname, hphone] at hmem
  · simp [handleSubmit, hready] at hmem

theorem C4_witness :
    (NetworkCall.storeWrite (contactsPath "default-app-id")
        { name := "John Smith"
          phoneNumber := "442079460199"
          userId := "uid-1"
          createdAt := FieldValue.serverTimestamp } ∈
      (handleSubmit envAllOk idleReadyState).2) ∧
    idleReadyState.userId = some "uid-1" ∧
    "John Smith" = jsTrim idleReadyState.name ∧
    ("John Smith" : String) ≠ "" ∧
    "442079460199" = idleReadyState.phoneNumber ∧
    validatePhoneNumber "442079460199" = true :=
  ⟨by decide,
    C4_store_write_requires_identity_and_validation envAllOk idleReadyState
      (contactsPath "default-app-id")
      { name := "John Smith"
        phoneNumber := "442079460199"
        userId := "uid-1"
        createdAt := FieldValue.serverTimestamp }
      (by decide)⟩

/-- Counterexample to claim C5: when the sign-in attempted on a no-identity
notification fails, the error status is posted but the session is NOT
marked ready: `isAuthReady` stays false. -/
theorem C5_counterexample_not_marked_ready :
    authEnvAnonFail.signInSucceeds = false ∧
    (onAuthStateChangedCallback authEnvAnonFail awaitingAuthState none).statusType =
      some StatusType.error ∧
    (onAuthStateChangedCallback authEnvAnonFail awaitingAuthState none).isAuthReady =
      false := by
  decide

/-- Claim C5 (amended): when the sign-in attempt performed on a
no-identity notification fails, the Auth error status is signaled, but
`isAuthReady` is left unchanged (the ready-despite-failure path exists
only for initialization errors, not sign-in errors). -/
theorem C5_amended_error_status_but_ready_unchanged (env : AuthEnv)
    (s : AppState) (hfail : env.signInSucceeds = false) :
    (onAuthStateChangedCallback env s none).statusMessage =
      some "Authentication failed. Check console for details." ∧
    (onAuthStateChangedCallback env s none).statusType = some StatusType.error ∧
    (onAuthStateChangedCallback env s none).isAuthReady = s.isAuthReady := by
  simp [onAuthStateChangedCallback, authenticate, hfail]

theorem C5_amended_witness :
    (onAuthStateChangedCallback authEnvAnonFail awaitingAuthState none).statusMessage =
      some "Authentication failed. Check console for details." ∧
    (onAuthStateChangedCallback authEnvAnonFail awaitingAuthState none).statusType =
      some StatusType.error ∧
    (onAuthStateChangedCallback authEnvAnonFail awaitingAuthState none).isAuthReady =
      awaitingAuthState.isAuthReady :=
  C5_amended_error_status_but_ready_unchanged authEnvAnonFail awaitingAuthState rfl

/-- Counterexample to claim C6: a submission attempted while the session is
not ready is rejected with an `info` status, not the `error` status the
claim requires (no network call is made either way). -/
theorem C6_counterexample_not_ready_gives_info :
    ({ idleReadyState with isAuthReady := false } : AppState).isAuthReady = false ∧
    (handleSubmit envAllOk { idleReadyState with isAuthReady := false }).1.statusType ≠
      some StatusType.error ∧
    (handleSubmit envAllOk { idleReadyState with isAuthReady := false }).1.statusType =
      some StatusType.info ∧
    (handleSubmit envAllOk { idleReadyState with isAuthReady := false }).2 = [] := by
  decide

/-- Claim C6 (amended): a submission with a not-ready session, an empty
trimmed name, or an invalid phone is rejected with no network call issued;
the not-ready rejection posts an `info` status, while a validation failure
posts the `error` status. -/
theorem C6_amended_reject_no_network_calls (env : Env) (s : AppState)
    (h : s.isAuthReady = false ∨ jsTrim s.name = "" ∨
      validatePhoneNumber s.phoneNumber = false) :
    (handleSubmit env s).2 = [] ∧
    (s.isAuthReady = false →
      (handleSubmit env s).1.statusType = some StatusType.info) ∧
    (s.isAuthReady = true →
      (handleSubmit env s).1.statusType = some StatusType.error) := by
  cases hready : s.isAuthReady with
  | false => simp [handleSubmit, hready]
  | true =>
      have hv : jsTrim s.name = "" ∨ validatePhoneNumber s.phoneNumber = false := by
        rcases h with h | h | h
        · rw [hready] at h
          exact absurd h (by simp)
        · exact Or.inl h
        · exact Or.inr h
      rcases hv with h1 | h1 <;> simp [handleSubmit, hready, h1]

theorem C6_amended_witness :
    ({ idleReadyState with name := "   " } : AppState).isAuthReady = true ∧
    jsTrim "   " = "" ∧
    (handleSubmit envAllOk { idleReadyState with name := "   " }).2 = [] ∧
    (handleSubmit envAllOk { idleReadyState with name := "   " }).1.statusType =
      some StatusType.error :=
  ⟨rfl, by decide,
    (C6_amended_reject_no_network_calls envAllOk
      { idleReadyState with name := "   " } (Or.inr (Or.inl (by decide)))).1,
    (C6_amended_reject_no_network_calls envAllOk
      { idleReadyState with name := "   " } (Or.inr (Or.inl (by decide)))).2.2 rfl⟩

/-- Claim C7: the end-to-end run with name "John Smith" and phone
"442079460199" in which both external calls succeed: the store receives
the record with both fields, the session uid and the server-timestamp
sentinel; the prediction request is built from the same two fields; the
final status is `success`; both inputs are cleared; and the
last-submission panel data holds the saved name, phone and document id. -/
theorem C7_end_to_end_success :
    handleSubmit envAllOk idleReadyState =
      ({ name := ""
         phoneNumber := ""
         submittedData := some
           { name := "John Smith", phoneNumber := "442079460199", docId := "doc-123" }
         isSubmitting := false
         db := true
         userId := some "uid-1"
         isAuthReady := true
         prediction := some "United Kingdom."
         isPredicting := false
         statusMessage := some "Data saved and prediction requested!"
         statusType := some StatusType.success },
       [NetworkCall.storeWrite (contactsPath "default-app-id")
          { name := "John Smith"
            phoneNumber := "442079460199"
            userId := "uid-1"
            createdAt := FieldValue.serverTimestamp },
        NetworkCall.inferenceRequest (userQuery "John Smith" "442079460199")]) := by
  rfl

/-- Claim C8: the submit control is disabled exactly when a submission is
in flight (`isSubmitting` or `isPredicting`) or the session is not yet
ready, so re-submitting mid-flight is impossible from the UI. -/
theorem C8_submit_disabled_iff_in_flight_or_not_ready (s : AppState) :
    submitButtonDisabled s = true ↔
      (s.isSubmitting = true ∨ s.isPredicting = true ∨ s.isAuthReady = false) := by
  simp [submitButtonDisabled, Bool.or_eq_true, Bool.not_eq_true', or_assoc]

/-- Claim C9: `predictCountryOfOrigin` never propagates a failure to
`handleSubmit`: whatever the fetch outcome, the post-prediction updates
run — `submittedData` is populated, the inputs are cleared, the success
status is posted, and both in-flight flags end false. -/
theorem C9_prediction_failure_never_propagates (env : Env) (s : AppState)
    (uid : String)
    (hready : s.isAuthReady = true)
    (hname : jsTrim s.name ≠ "")
    (hphone : validatePhoneNumber s.phoneNumber = true)
    (hdb : s.db = true)
    (huid : s.userId = some uid)
    (hw : env.writeSucceeds = true) :
    (handleSubmit env s).1.submittedData =
      some { name := jsTrim s.name, phoneNumber := s.phoneNumber, docId := env.docId } ∧
    (handleSubmit env s).1.name = "" ∧
    (handleSubmit env s).1.phoneNumber = "" ∧
    (handleSubmit env s).1.statusType = some StatusType.success ∧
    (handleSubmit env s).1.isSubmitting = false ∧
    (handleSubmit env s).1.isPredicting = false := by
  cases hfetch : env.fetch with
  | networkError =>
      simp [handleSubmit, saveContactToFirestore, predictCountryOfOrigin,
        hready, hphone, hdb, huid, hw, hname, hfetch]
  | response ok text =>
      cases ok <;>
        simp [handleSubmit, saveContactToFirestore, predictCountryOfOrigin,
          hready, hphone, hdb, huid, hw, hname, hfetch]

theorem C9_witness :
    envPredictNetworkError.writeSucceeds = true ∧
    (handleSubmit envPredictNetworkError idleReadyState).1.submittedData =
      some { name := "John Smith", phoneNumber := "442079460199", docId := "doc-123" } ∧
    (handleSubmit envPredictNetworkError idleReadyState).1.name = "" ∧
    (handleSubmit envPredictNetworkError idleReadyState).1.phoneNumber = "" ∧
    (handleSubmit envPredictNetworkError idleReadyState).1.statusType =
      some StatusType.success ∧
    (handleSubmit envPredictNetworkError idleReadyState).1.isSubmitting = false ∧
    (handleSubmit envPredictNetworkError idleReadyState).1.isPredicting = false :=
  ⟨rfl,
    C9_prediction_failure_never_propagates envPredictNetworkError idleReadyState
      "uid-1" rfl (by decide) (by decide) rfl rfl rfl⟩

/-- Claim C10: even a rejected submission (not-ready session, empty
trimmed name, or invalid phone) first clears the previous submission's
summary and prediction, so the prior last-submission display is erased. -/
theorem C10_reject_still_clears_previous_results (env : Env) (s : AppState)
    (h : s.isAuthReady = false ∨ jsTrim s.name = "" ∨
      validatePhoneNumber s.phoneNumber = false) :
    (handleSubmit env s).1.submittedData = none ∧
    (handleSubmit env s).1.prediction = none := by
  cases hready : s.isAuthReady with
  | false => simp [handleSubmit, hready]
  | true =>
      have hv : jsTrim s.name = "" ∨ validatePhoneNumber s.phoneNumber = false := by
        rcases h with h | h | h
        · rw [hready] at h
          exact absurd h (by simp)
        · exact Or.inl h
        · exact Or.inr h
      rcases hv with h1 | h1 <;> simp [handleSubmit, hready, h1]

theorem C10_witness :
    ({ idleReadyState with
        isAuthReady := false
        submittedData := some { name := "Old", phoneNumber := "1234567", docId := "old-doc" }
        prediction := some "Oldland" } : AppState).isAuthReady = false ∧
    (handleSubmit envAllOk
      { idleReadyState with
          isAuthReady := false
          submittedData := some { name := "Old", phoneNumber := "1234567", docId := "old-doc" }
          prediction := some "Oldland" }).1.submittedData = none ∧
    (handleSubmit envAllOk
      { idleReadyState with
          isAuthReady := false
          submittedData := some { name := "Old", phoneNumber := "1234567", docId := "old-doc" }
          prediction := some "Oldland" }).1.prediction = none :=
  ⟨rfl,
    C10_reject_still_clears_previous_results envAllOk
      { idleReadyState with
          isAuthReady := false
          submittedData := some { name := "Old", phoneNumber := "1234567", docId := "old-doc" }
          prediction := some "Oldland" } (Or.inl rfl)⟩
